import Mathlib

/-!
Verification of the PocketBase collection-provisioning core of the
pokestack repository (source: src/qwe/src/lib/test-utils.ts, sections
"schemas" and "provision").

The remote PocketBase server is an external collaborator; it is modelled
as a `Server` value carrying the current collection names plus the
outcome (success, or a thrown error message) of each remote call the
provisioning code can issue.  Remote-call outcomes are keyed by the
collection name the call is about; within one run they are fixed, and
the only state the code can change is the set of collection names on
the server (a successful create adds the created name).
-/

set_option maxRecDepth 4096

/-- JSON-like values, used to model the TypeScript
`Record<string, unknown>` option bags and the wire payloads built by
`buildCollectionPayload`.  Objects are ordered association lists, which
mirrors JavaScript property-insertion order. -/
inductive JValue where
  | str (s : String)
  | num (n : Int)
  | jbool (b : Bool)
  | null
  | arr (xs : List JValue)
  | obj (fs : List (String × JValue))

/-- Field kinds of `FieldSchema.type` in src/qwe/src/lib/test-utils.ts. -/
inductive FieldType where
  | text
  | number
  | bool
  | email
  | url
  | date
  | select
  | json
  | file
  | relation
  | editor
deriving DecidableEq, Repr

/-- The wire name of a field kind (the TypeScript string literal). -/
def FieldType.wireName : FieldType → String
  | .text => "text"
  | .number => "number"
  | .bool => "bool"
  | .email => "email"
  | .url => "url"
  | .date => "date"
  | .select => "select"
  | .json => "json"
  | .file => "file"
  | .relation => "relation"
  | .editor => "editor"

/-- `FieldSchema` from the source: name, kind, optional `required` flag
and an optional bag of kind-specific options. -/
structure FieldSchema where
  name : String
  type : FieldType
  required : Option Bool
  options : Option (List (String × JValue))

/-- Collection kinds of `CollectionSchema.type`. -/
inductive CollectionType where
  | base
  | auth
  | view
deriving DecidableEq, Repr

/-- `CollectionSchema` from the source.  The five access rules are
`string | null | undefined` in TypeScript; `none` stands for the two
"locked" encodings (null / absent). -/
structure CollectionSchema where
  name : String
  type : CollectionType
  fields : List FieldSchema
  indexes : Option (List String)
  listRule : Option String
  viewRule : Option String
  createRule : Option String
  updateRule : Option String
  deleteRule : Option String

/-- `ProvisionResult` from the source: outcome structure of one
provisioning run.  `errors` entries are (collection tag, error message)
pairs. -/
structure ProvisionResult where
  success : Bool
  created : List String
  skipped : List String
  errors : List (String × String)
  message : String
deriving DecidableEq, Repr

/-- Which kind of `settings` bag was passed in `ProvisionOptions`:
one containing a `googleAuth` key (OAuth2 path of step 2.5) or any
other non-empty settings object (the `pb.settings.update` fallback). -/
inductive SettingsOpt where
  | googleAuth
  | other
deriving DecidableEq, Repr

/-- The caller-controlled arguments of `provisionCollections` that the
model keeps: the registry, the `updateExisting` flag and the optional
settings bag.  URL and credentials select the server, which the model
passes separately. -/
structure ProvisionOptions where
  collections : List CollectionSchema
  updateExisting : Bool
  settings : Option SettingsOpt

/-- Model of the remote PocketBase server seen through the SDK calls the
provisioning code performs.  `collections` is the current list of
collection names; each `...Error` field is `some msg` when the
corresponding remote call throws with message `msg` and `none` when it
succeeds.  Per-collection call outcomes are functions of the collection
name. -/
structure Server where
  collections : List String
  authError : Option String
  listError : Option String
  usersGetError : Option String
  oauthUpdateError : Option String
  settingsError : Option String
  getOneError : String → Option String
  updateError : String → Option String
  createError : String → Option String

/-- Output of one modelled run: the returned `ProvisionResult`, the
server as left behind by the run's create calls, and whether the admin
auth token is still held in `pb.authStore` when the function returns
(`true` means the session was NOT cleared). -/
structure RunOutput where
  result : ProvisionResult
  server : Server
  authValid : Bool

/-- Add a name to the server's collection list if not present (a
successful create call registers the new collection). -/
def addIfAbsent (st : List String) (n : String) : List String :=
  if st.contains n then st else st ++ [n]

/-- Per-schema outcome of step 3's loop body, as a function of the
schema's name: the branch structure mirrors the source loop
(`existingCollections.has` test, `updateExisting` test, then the
try/catch around getOne+update resp. create). -/
inductive Outcome where
  | createdNew (n : String)
  | updatedExisting (n : String)
  | wasSkipped (n : String)
  | failed (n : String) (msg : String)
deriving DecidableEq, Repr

/-- The outcome of processing one schema name inside the loop, given the
captured`existingCollections` set and the server's per-name call
outcomes. -/
def itemOutcome (env : Server) (upd : Bool) (existing : List String) (n : String) : Outcome :=
  if existing.contains n then
    if upd then
      match env.getOneError n with
      | some e => Outcome.failed n e
      | none =>
        match env.updateError n with
        | some e => Outcome.failed n e
        | none => Outcome.updatedExisting n
    else Outcome.wasSkipped n
  else
    match env.createError n with
    | some e => Outcome.failed n e
    | none => Outcome.createdNew n

/-- Step 3 of `provisionCollections`: process the registry in order,
threading the server's collection list (mutated only by successful
creates) and accumulating the `created` / `skipped` / `errors` lists in
iteration order. -/
def runLoop (env : Server) (upd : Bool) (existing : List String) :
    List CollectionSchema → List String →
    List String × List String × List String × List (String × String)
  | [], st => (st, [], [], [])
  | s :: rest, st =>
    let step :=
      match itemOutcome env upd existing s.name with
      | Outcome.createdNew n => (addIfAbsent st n, [n], ([] : List String), ([] : List (String × String)))
      | Outcome.updatedExisting n => (st, [n ++ " (updated)"], [], [])
      | Outcome.wasSkipped n => (st, [], [n], [])
      | Outcome.failed n msg => (st, [], [], [(n, msg)])
    let tail := runLoop env upd existing rest step.1
    (tail.1, step.2.1 ++ tail.2.1, step.2.2.1 ++ tail.2.2.1, step.2.2.2 ++ tail.2.2.2)

/-- Step 2.5 of `provisionCollections`: the optional settings update.
With a `googleAuth` key the code fetches the `users` collection and
updates its OAuth2 config, tagging a failure of either call with the
collection name `users`; otherwise it calls the global settings update,
tagging a failure with `_settings`.  Failures are recorded, never
fatal. -/
def settingsStep (env : Server) (settings : Option SettingsOpt) : List (String × String) :=
  match settings with
  | none => []
  | some SettingsOpt.googleAuth =>
    match env.usersGetError with
    | some e => [("users", e)]
    | none =>
      match env.oauthUpdateError with
      | some e => [("users", e)]
      | none => []
  | some SettingsOpt.other =>
    match env.settingsError with
    | some e => [("_settings", e)]
    | none => []

/-- The full `provisionCollections` run (steps 1 to 6 of the source):
authenticate, fetch the existing-collection set, apply optional
settings, reconcile each schema, then compute `success` and the summary
message.  The early returns on auth / fetch failure leave the server
untouched and do not clear the auth store; the normal path clears it. -/
def provisionCollections (env : Server) (opts : ProvisionOptions) : RunOutput :=
  match env.authError with
  | some e =>
    { result :=
        { success := false, created := [], skipped := []
          errors := [("_admin", e)]
          message := "Admin authentication failed: " ++ e }
      server := env, authValid := false }
  | none =>
    match env.listError with
    | some e =>
      { result :=
          { success := false, created := [], skipped := []
            errors := [("_system", e)]
            message := "Failed to fetch collections: " ++ e }
        server := env, authValid := true }
    | none =>
      let existing := env.collections
      let sErrs := settingsStep env opts.settings
      let loopOut := runLoop env opts.updateExisting existing opts.collections env.collections
      let created := loopOut.2.1
      let skipped := loopOut.2.2.1
      let errors := sErrs ++ loopOut.2.2.2
      let finalPart :=
        if errors.length > 0 then
          (false, "Completed with " ++ toString errors.length ++ " error(s)")
        else if created.length = 0 ∧ skipped.length > 0 then
          (true, "All " ++ toString skipped.length ++ " collection(s) already exist")
        else
          (true, "Successfully created " ++ toString created.length ++ " collection(s)")
      { result :=
          { success := finalPart.1, created := created, skipped := skipped
            errors := errors, message := finalPart.2 }
        server := { env with collections := loopOut.1 }
        authValid := false }

/-- `checkPocketBaseHealth` result shape. -/
structure HealthResult where
  healthy : Bool
  message : String
deriving DecidableEq, Repr

/-- `checkPocketBaseHealth` from the source: the health call either
returns a message or throws; the catch converts the thrown description
into an unhealthy result. -/
def checkPocketBaseHealth (h : Except String String) : HealthResult :=
  match h with
  | Except.ok m => { healthy := true, message := m }
  | Except.error e => { healthy := false, message := e }

/-- Look up a key in an optional options bag (`options?.key` in the
source: `none` when the bag is absent or the key missing). -/
def getOpt (opts : Option (List (String × JValue))) (k : String) : Option JValue :=
  match opts with
  | none => none
  | some l => l.lookup k

/-- `options?.key ?? default` — JavaScript nullish coalescing: the
default applies when the bag is absent, the key is missing, or the
stored value is null. -/
def optD (opts : Option (List (String × JValue))) (k : String) (d : JValue) : JValue :=
  match getOpt opts k with
  | none => d
  | some JValue.null => d
  | some v => v

/-- One step of JavaScript `Object.assign`: overwrite the value of an
existing key in place, or append a new key at the end. -/
def assignOne (base : List (String × JValue)) (kv : String × JValue) : List (String × JValue) :=
  if base.any (fun p => p.1 = kv.1) then
    base.map (fun p => if p.1 = kv.1 then (p.1, kv.2) else p)
  else base ++ [kv]

/-- JavaScript `Object.assign(base, opts)`: shallow merge, left to
right over the option entries. -/
def objAssign (base opts : List (String × JValue)) : List (String × JValue) :=
  opts.foldl assignOne base

/-- The common head of every field payload: `name`, `type`,
`required` (defaulting to false). -/
def fieldBase (f : FieldSchema) : List (String × JValue) :=
  [("name", JValue.str f.name),
   ("type", JValue.str f.type.wireName),
   ("required", JValue.jbool (f.required.getD false))]

/-- The per-field part of `buildCollectionPayload`: the common head
followed by the kind-specific attributes with their source defaults;
for the remaining kinds (email, url, date, json) any supplied options
are shallow-merged onto the base object. -/
def buildFieldPayload (f : FieldSchema) : List (String × JValue) :=
  match f.type with
  | FieldType.text =>
    fieldBase f ++
      [("min", optD f.options "min" (JValue.num 0)),
       ("max", optD f.options "max" (JValue.num 0)),
       ("pattern", optD f.options "pattern" (JValue.str ""))]
  | FieldType.number =>
    fieldBase f ++
      [("min", optD f.options "min" JValue.null),
       ("max", optD f.options "max" JValue.null),
       ("noDecimal", optD f.options "noDecimal" (JValue.jbool false))]
  | FieldType.bool => fieldBase f
  | FieldType.select =>
    fieldBase f ++
      [("values", optD f.options "values" (JValue.arr [])),
       ("maxSelect", optD f.options "maxSelect" (JValue.num 1))]
  | FieldType.relation =>
    fieldBase f ++
      [("collectionId", optD f.options "collectionId" (JValue.str "")),
       ("cascadeDelete", optD f.options "cascadeDelete" (JValue.jbool false)),
       ("maxSelect", optD f.options "maxSelect" (JValue.num 1))]
  | FieldType.file =>
    fieldBase f ++
      [("maxSelect", optD f.options "maxSelect" (JValue.num 1)),
       ("maxSize", optD f.options "maxSize" (JValue.num 5242880)),
       ("mimeTypes", optD f.options "mimeTypes" (JValue.arr []))]
  | FieldType.editor =>
    fieldBase f ++
      [("convertUrls", optD f.options "convertUrls" (JValue.jbool false))]
  | _ =>
    match f.options with
    | none => fieldBase f
    | some opts => objAssign (fieldBase f) opts

/-- Whether a field kind falls through to the generic
`Object.assign` branch of the source (email, url, date, json). -/
def isOtherKind : FieldType → Bool
  | FieldType.email => true
  | FieldType.url => true
  | FieldType.date => true
  | FieldType.json => true
  | _ => false

/-- The top-level wire payload for a collection create/update call. -/
structure CollectionPayload where
  name : String
  type : CollectionType
  fields : List (List (String × JValue))
  indexes : List String
  listRule : Option String
  viewRule : Option String
  createRule : Option String
  updateRule : Option String
  deleteRule : Option String

/-- `buildCollectionPayload` from the source: field payloads in
registry order, indexes defaulting to the empty list, the five access
rules copied through unchanged. -/
def buildCollectionPayload (s : CollectionSchema) : CollectionPayload :=
  { name := s.name
    type := s.type
    fields := s.fields.map buildFieldPayload
    indexes := s.indexes.getD []
    listRule := s.listRule
    viewRule := s.viewRule
    createRule := s.createRule
    updateRule := s.updateRule
    deleteRule := s.deleteRule }

/-!
An exception-passing rendering of the same code.  Each remote call is a
`Except String` computation that actually throws, and every try/catch
block of the source becomes a `tryE` at the same place.  Proving that
this version always returns `Except.ok` of the pure model shows that
every throwing call is guarded by a handler: no failure escapes the
function boundary.
-/

/-- Exception handling combinator: the denotation of a JavaScript
try/catch block over `Except`. -/
def tryE {α : Type} (x : Except String α) (h : String → Except String α) : Except String α :=
  match x with
  | Except.error e => h e
  | Except.ok a => Except.ok a

/-- Sequencing of `Except` computations (monadic bind, kept as a plain
definition so proofs unfold it directly). -/
def exBind {α β : Type} (x : Except String α) (f : α → Except String β) : Except String β :=
  match x with
  | Except.error e => Except.error e
  | Except.ok a => f a

/-- A remote call that either succeeds with `Unit` or throws. -/
def callUnit (o : Option String) : Except String Unit :=
  match o with
  | some e => Except.error e
  | none => Except.ok ()

/-- The `getFullList` remote call: throws, or returns the server's
current collection names. -/
def callList (o : Option String) (xs : List String) : Except String (List String) :=
  match o with
  | some e => Except.error e
  | none => Except.ok xs

/-- Step 2.5 with real exceptions: each branch wraps its remote calls
in a try/catch that converts the thrown message into a recorded error
entry. -/
def settingsStepE (env : Server) (settings : Option SettingsOpt) :
    Except String (List (String × String)) :=
  match settings with
  | none => Except.ok []
  | some SettingsOpt.googleAuth =>
    tryE (exBind (callUnit env.usersGetError) (fun _ =>
            exBind (callUnit env.oauthUpdateError) (fun _ => Except.ok [])))
      (fun e => Except.ok [("users", e)])
  | some SettingsOpt.other =>
    tryE (exBind (callUnit env.settingsError) (fun _ => Except.ok []))
      (fun e => Except.ok [("_settings", e)])

/-- Step 3's loop with real exceptions: the getOne+update pair and the
create call throw and are caught per iteration, exactly as the two
try/catch blocks inside the source loop. -/
def runLoopE (env : Server) (upd : Bool) (existing : List String) :
    List CollectionSchema → List String →
    Except String (List String × List String × List String × List (String × String))
  | [], st => Except.ok (st, [], [], [])
  | s :: rest, st =>
    let step : Except String (List String × List String × List String × List (String × String)) :=
      if existing.contains s.name then
        if upd then
          tryE (exBind (callUnit (env.getOneError s.name)) (fun _ =>
                  exBind (callUnit (env.updateError s.name)) (fun _ =>
                    Except.ok (st, [s.name ++ " (updated)"], [], []))))
            (fun e => Except.ok (st, [], [], [(s.name, e)]))
        else Except.ok (st, [], [s.name], [])
      else
        tryE (exBind (callUnit (env.createError s.name)) (fun _ =>
                Except.ok (addIfAbsent st s.name, [s.name], [], [])))
          (fun e => Except.ok (st, [], [], [(s.name, e)]))
    exBind step (fun stepOut =>
      exBind (runLoopE env upd existing rest stepOut.1) (fun tail =>
        Except.ok (tail.1, stepOut.2.1 ++ tail.2.1,
          stepOut.2.2.1 ++ tail.2.2.1, stepOut.2.2.2 ++ tail.2.2.2)))

/-- The full run with real exceptions: auth and fetch are wrapped in
the source's two try/catch-and-return-early blocks; the rest proceeds
as in the pure model. -/
def provisionCollectionsE (env : Server) (opts : ProvisionOptions) :
    Except String RunOutput :=
  exBind
    (tryE (exBind (callUnit env.authError) (fun _ => Except.ok (Option.none)))
      (fun e => Except.ok (some
        { result :=
            { success := false, created := [], skipped := []
              errors := [("_admin", e)]
              message := "Admin authentication failed: " ++ e }
          server := env, authValid := false })))
    (fun earlyAuth =>
      match earlyAuth with
      | some out => Except.ok out
      | none =>
        exBind
          (tryE (exBind (callList env.listError env.collections) (fun xs =>
                   Except.ok (Sum.inr xs)))
            (fun e => Except.ok (Sum.inl
              { result :=
                  { success := false, created := [], skipped := []
                    errors := [("_system", e)]
                    message := "Failed to fetch collections: " ++ e }
                server := env, authValid := true })))
          (fun fetchStep =>
            match fetchStep with
            | Sum.inl out => Except.ok out
            | Sum.inr existing =>
              exBind (settingsStepE env opts.settings) (fun sErrs =>
                exBind (runLoopE env opts.updateExisting existing opts.collections env.collections)
                  (fun loopOut =>
                    let created := loopOut.2.1
                    let skipped := loopOut.2.2.1
                    let errors := sErrs ++ loopOut.2.2.2
                    let finalPart :=
                      if errors.length > 0 then
                        (false, "Completed with " ++ toString errors.length ++ " error(s)")
                      else if created.length = 0 ∧ skipped.length > 0 then
                        (true, "All " ++ toString skipped.length ++ " collection(s) already exist")
                      else
                        (true, "Successfully created " ++ toString created.length ++ " collection(s)")
                    Except.ok
                      { result :=
                          { success := finalPart.1, created := created, skipped := skipped
                            errors := errors, message := finalPart.2 }
                        server := { env with collections := loopOut.1 }
                        authValid := false }))))

/-- `checkPocketBaseHealth` with a throwing health call wrapped in the
source's try/catch. -/
def checkPocketBaseHealthE (h : Except String String) : Except String HealthResult :=
  tryE (exBind h (fun m => Except.ok { healthy := true, message := m }))
    (fun e => Except.ok { healthy := false, message := e })

/-!  Per-name views of the loop, used to state the partition and
independence properties. -/

/-- The entry a schema name contributes to `created` (annotated with
" (updated)" on the update path), if any. -/
def createdEntry (env : Server) (upd : Bool) (ex : List String) (n : String) : Option String :=
  match itemOutcome env upd ex n with
  | Outcome.createdNew m => some m
  | Outcome.updatedExisting m => some (m ++ " (updated)")
  | _ => none

/-- The entry a schema name contributes to `skipped`, if any. -/
def skippedEntry (env : Server) (upd : Bool) (ex : List String) (n : String) : Option String :=
  match itemOutcome env upd ex n with
  | Outcome.wasSkipped m => some m
  | _ => none

/-- The entry a schema name contributes to `errors`, if any. -/
def errorEntry (env : Server) (upd : Bool) (ex : List String) (n : String) :
    Option (String × String) :=
  match itemOutcome env upd ex n with
  | Outcome.failed m e => some (m, e)
  | _ => none

/-- How processing one schema name changes the server's collection
list: only a successful fresh create adds the name. -/
def stepState (env : Server) (upd : Bool) (ex : List String) (st : List String) (n : String) :
    List String :=
  match itemOutcome env upd ex n with
  | Outcome.createdNew m => addIfAbsent st m
  | _ => st

/-- 0 or 1 according to presence of an optional value. -/
def optCount {α : Type} : Option α → Nat
  | none => 0
  | some _ => 1

/-- The name carried by an outcome. -/
def Outcome.tag : Outcome → String
  | Outcome.createdNew n => n
  | Outcome.updatedExisting n => n
  | Outcome.wasSkipped n => n
  | Outcome.failed n _ => n

theorem itemOutcome_tag (env : Server) (upd : Bool) (ex : List String) (n : String) :
    (itemOutcome env upd ex n).tag = n := by
  unfold itemOutcome
  by_cases hc : n ∈ ex
  · cases upd with
    | false => simp [hc, Outcome.tag]
    | true =>
      cases hg : env.getOneError n with
      | some e => simp [hc, hg, Outcome.tag]
      | none =>
        cases hu : env.updateError n with
        | some e => simp [hc, hg, hu, Outcome.tag]
        | none => simp [hc, hg, hu, Outcome.tag]
  · cases hcr : env.createError n with
    | some e => simp [hc, hcr, Outcome.tag]
    | none => simp [hc, hcr, Outcome.tag]

/-- Exactly one of the three entry functions fires for every name. -/
theorem entry_count_one (env : Server) (upd : Bool) (ex : List String) (n : String) :
    optCount (createdEntry env upd ex n) + optCount (skippedEntry env upd ex n) +
      optCount (errorEntry env upd ex n) = 1 := by
  unfold createdEntry skippedEntry errorEntry
  cases h : itemOutcome env upd ex n <;> simp [optCount]

/-- The loop is the pointwise accumulation of the per-name entry
functions, in registry order. -/
theorem runLoop_parts (env : Server) (upd : Bool) (ex : List String)
    (regs : List CollectionSchema) (st : List String) :
    runLoop env upd ex regs st =
      ((regs.map (fun s => s.name)).foldl (stepState env upd ex) st,
       (regs.map (fun s => s.name)).filterMap (createdEntry env upd ex),
       (regs.map (fun s => s.name)).filterMap (skippedEntry env upd ex),
       (regs.map (fun s => s.name)).filterMap (errorEntry env upd ex)) := by
  induction regs generalizing st with
  | nil => rfl
  | cons s rest ih =>
    simp only [runLoop, List.map_cons, List.foldl_cons, List.filterMap_cons]
    cases h : itemOutcome env upd ex s.name <;>
      simp [createdEntry, skippedEntry, errorEntry, stepState, h, ih]

/-- The exception-passing loop always returns, with the pure loop's
value. -/
theorem runLoopE_eq (env : Server) (upd : Bool) (ex : List String)
    (regs : List CollectionSchema) (st : List String) :
    runLoopE env upd ex regs st = Except.ok (runLoop env upd ex regs st) := by
  induction regs generalizing st with
  | nil => rfl
  | cons s rest ih =>
    simp only [runLoopE, runLoop, itemOutcome]
    by_cases hc : s.name ∈ ex
    · cases upd with
      | false => simp [hc, exBind, ih]
      | true =>
        cases hg : env.getOneError s.name with
        | some e => simp [hc, hg, tryE, exBind, callUnit, ih]
        | none =>
          cases hu : env.updateError s.name with
          | some e => simp [hc, hg, hu, tryE, exBind, callUnit, ih]
          | none => simp [hc, hg, hu, tryE, exBind, callUnit, ih]
    · cases hcr : env.createError s.name with
      | some e => simp [hc, hcr, tryE, exBind, callUnit, ih]
      | none => simp [hc, hcr, tryE, exBind, callUnit, ih]

/-- The exception-passing settings step always returns, with the pure
value. -/
theorem settingsStepE_eq (env : Server) (settings : Option SettingsOpt) :
    settingsStepE env settings = Except.ok (settingsStep env settings) := by
  cases settings with
  | none => rfl
  | some o =>
    cases o with
    | googleAuth =>
      simp only [settingsStepE, settingsStep]
      cases hg : env.usersGetError with
      | some e => simp [hg, tryE, exBind, callUnit]
      | none =>
        cases ho : env.oauthUpdateError with
        | some e => simp [hg, ho, tryE, exBind, callUnit]
        | none => simp [hg, ho, tryE, exBind, callUnit]
    | other =>
      simp only [settingsStepE, settingsStep]
      cases hs : env.settingsError with
      | some e => simp [hs, tryE, exBind, callUnit]
      | none => simp [hs, tryE, exBind, callUnit]

/-- The exception-passing run always returns `Except.ok`, and agrees
with the pure model: no failure mode escapes the function boundary. -/
theorem provisionCollectionsE_eq (env : Server) (opts : ProvisionOptions) :
    provisionCollectionsE env opts = Except.ok (provisionCollections env opts) := by
  unfold provisionCollectionsE provisionCollections
  cases ha : env.authError with
  | some e => simp [ha, tryE, exBind, callUnit]
  | none =>
    cases hl : env.listError with
    | some e => simp [ha, hl, tryE, exBind, callUnit, callList]
    | none =>
      simp [ha, hl, tryE, exBind, callUnit, callList, settingsStepE_eq, runLoopE_eq]

/-- The exception-passing health check always returns `Except.ok` of
the pure result. -/
theorem checkPocketBaseHealthE_eq (h : Except String String) :
    checkPocketBaseHealthE h = Except.ok (checkPocketBaseHealth h) := by
  cases h with
  | ok m => rfl
  | error e => rfl

/-!  Field-level description of the main path (auth and fetch both
succeed). -/

theorem provision_created (env : Server) (opts : ProvisionOptions)
    (hauth : env.authError = none) (hlist : env.listError = none) :
    (provisionCollections env opts).result.created =
      (opts.collections.map (fun s => s.name)).filterMap
        (createdEntry env opts.updateExisting env.collections) := by
  simp [provisionCollections, hauth, hlist, runLoop_parts]

theorem provision_skipped (env : Server) (opts : ProvisionOptions)
    (hauth : env.authError = none) (hlist : env.listError = none) :
    (provisionCollections env opts).result.skipped =
      (opts.collections.map (fun s => s.name)).filterMap
        (skippedEntry env opts.updateExisting env.collections) := by
  simp [provisionCollections, hauth, hlist, runLoop_parts]

theorem provision_errors (env : Server) (opts : ProvisionOptions)
    (hauth : env.authError = none) (hlist : env.listError = none) :
    (provisionCollections env opts).result.errors =
      settingsStep env opts.settings ++
        (opts.collections.map (fun s => s.name)).filterMap
          (errorEntry env opts.updateExisting env.collections) := by
  simp [provisionCollections, hauth, hlist, runLoop_parts]

theorem provision_server (env : Server) (opts : ProvisionOptions)
    (hauth : env.authError = none) (hlist : env.listError = none) :
    (provisionCollections env opts).server =
      Server.mk
        ((opts.collections.map (fun s => s.name)).foldl
          (stepState env opts.updateExisting env.collections) env.collections)
        env.authError env.listError env.usersGetError env.oauthUpdateError
        env.settingsError env.getOneError env.updateError env.createError := by
  simp [provisionCollections, hauth, hlist, runLoop_parts]

theorem provision_authValid (env : Server) (opts : ProvisionOptions)
    (hauth : env.authError = none) (hlist : env.listError = none) :
    (provisionCollections env opts).authValid = false := by
  simp [provisionCollections, hauth, hlist]

/-- The returned `success` flag is the emptiness of `errors`, on every
path. -/
theorem provision_success_iff (env : Server) (opts : ProvisionOptions) :
    ((provisionCollections env opts).result.success = true) ↔
      (provisionCollections env opts).result.errors = [] := by
  unfold provisionCollections
  cases ha : env.authError with
  | some e => simp
  | none =>
    cases hl : env.listError with
    | some e => simp
    | none =>
      simp only [provisionCollections, ha, hl]
      generalize settingsStep env opts.settings ++
        (runLoop env opts.updateExisting env.collections opts.collections
          env.collections).2.2.2 = E
      cases E with
      | nil =>
        simp only [List.length_nil, gt_iff_lt, Nat.lt_irrefl, if_false]
        split_ifs <;> simp
      | cons a t => simp

/-!  State lemmas: the server's collection list only grows during a
run, and a run with no per-item error leaves every registry name on the
server. -/

theorem mem_addIfAbsent_of_mem (st : List String) (n x : String) (h : x ∈ st) :
    x ∈ addIfAbsent st n := by
  unfold addIfAbsent
  split <;> simp [h]

theorem self_mem_addIfAbsent (st : List String) (n : String) : n ∈ addIfAbsent st n := by
  unfold addIfAbsent
  split <;> simp_all

theorem mem_stepState_of_mem (env : Server) (upd : Bool) (ex st : List String)
    (n x : String) (h : x ∈ st) : x ∈ stepState env upd ex st n := by
  unfold stepState
  cases itemOutcome env upd ex n <;> simp [h, mem_addIfAbsent_of_mem]

theorem mem_foldl_stepState_of_mem (env : Server) (upd : Bool) (ex : List String)
    (names : List String) (st : List String) (x : String) (h : x ∈ st) :
    x ∈ names.foldl (stepState env upd ex) st := by
  induction names generalizing st with
  | nil => simpa using h
  | cons m rest ih =>
    simp only [List.foldl_cons]
    exact ih _ (mem_stepState_of_mem env upd ex st m x h)

theorem itemOutcome_updated_mem (env : Server) (upd : Bool) (ex : List String)
    (m k : String) (h : itemOutcome env upd ex m = Outcome.updatedExisting k) : m ∈ ex := by
  by_cases hc : m ∈ ex
  · exact hc
  · exfalso
    unfold itemOutcome at h
    simp [hc] at h
    cases hcr : env.createError m <;> simp [hcr] at h

theorem itemOutcome_skipped_mem (env : Server) (upd : Bool) (ex : List String)
    (m k : String) (h : itemOutcome env upd ex m = Outcome.wasSkipped k) : m ∈ ex := by
  by_cases hc : m ∈ ex
  · exact hc
  · exfalso
    unfold itemOutcome at h
    simp [hc] at h
    cases hcr : env.createError m <;> simp [hcr] at h

/-- If a name's processing did not error, the name is on the server
after the loop (given that the captured existing set is contained in
the threaded state, as it is when the run starts). -/
theorem mem_foldl_stepState_complete (env : Server) (upd : Bool) (ex : List String)
    (names : List String) (st : List String) (hex : ∀ y ∈ ex, y ∈ st) :
    ∀ n ∈ names, errorEntry env upd ex n = none →
      n ∈ names.foldl (stepState env upd ex) st := by
  induction names generalizing st with
  | nil => intro n hn; simp at hn
  | cons m rest ih =>
    intro n hn hne
    simp only [List.foldl_cons]
    have hex1 : ∀ y ∈ ex, y ∈ stepState env upd ex st m :=
      fun y hy => mem_stepState_of_mem env upd ex st m y (hex y hy)
    rcases List.mem_cons.mp hn with rfl | hmem
    · unfold errorEntry at hne
      cases h : itemOutcome env upd ex n with
      | failed a b => rw [h] at hne; simp at hne
      | createdNew a =>
        have ha : a = n := by
          have := itemOutcome_tag env upd ex n
          rw [h] at this
          exact this
        apply mem_foldl_stepState_of_mem
        unfold stepState
        rw [h, ha]
        exact self_mem_addIfAbsent st n
      | updatedExisting a =>
        apply mem_foldl_stepState_of_mem
        exact hex1 n (itemOutcome_updated_mem env upd ex n a h)
      | wasSkipped a =>
        apply mem_foldl_stepState_of_mem
        exact hex1 n (itemOutcome_skipped_mem env upd ex n a h)
    · exact ih _ hex1 n hmem hne

/-- A run of the loop with `updateExisting = false` over a registry all
of whose names already exist skips everything, in order, and leaves the
state unchanged. -/
theorem runLoop_all_skip (env : Server) (ex : List String)
    (regs : List CollectionSchema) (st : List String)
    (h : ∀ s ∈ regs, s.name ∈ ex) :
    runLoop env false ex regs st = (st, [], regs.map (fun s => s.name), []) := by
  induction regs generalizing st with
  | nil => rfl
  | cons s rest ih =>
    have hs : s.name ∈ ex := h s (List.mem_cons_self s rest)
    have hrest : ∀ t ∈ rest, t.name ∈ ex := fun t ht => h t (List.mem_cons_of_mem s ht)
    have ht := ih st hrest
    simp [runLoop, itemOutcome, hs, ht]

/-!  Inversion lemmas for the per-name entry functions, and counting
lemmas for the partition property. -/

theorem skippedEntry_some (env : Server) (upd : Bool) (ex : List String) (m n : String)
    (h : skippedEntry env upd ex m = some n) :
    n = m ∧ itemOutcome env upd ex m = Outcome.wasSkipped m := by
  unfold skippedEntry at h
  cases ho : itemOutcome env upd ex m <;> rw [ho] at h <;> simp at h
  case wasSkipped a =>
    have ht := itemOutcome_tag env upd ex m
    rw [ho] at ht
    simp [Outcome.tag] at ht
    subst ht
    exact ⟨h.symm, rfl⟩

theorem errorEntry_some (env : Server) (upd : Bool) (ex : List String) (m n msg : String)
    (h : errorEntry env upd ex m = some (n, msg)) :
    n = m ∧ itemOutcome env upd ex m = Outcome.failed m msg := by
  unfold errorEntry at h
  cases ho : itemOutcome env upd ex m <;> rw [ho] at h <;> simp at h
  case failed a b =>
    have ht := itemOutcome_tag env upd ex m
    rw [ho] at ht
    simp [Outcome.tag] at ht
    subst ht
    rcases h with ⟨h1, h2⟩
    subst h1
    subst h2
    exact ⟨rfl, rfl⟩

theorem three_filterMap_length {α : Type} (c k : α → Option String)
    (e : α → Option (String × String)) (l : List α)
    (h : ∀ n ∈ l, optCount (c n) + optCount (k n) + optCount (e n) = 1) :
    (l.filterMap c).length + (l.filterMap k).length + (l.filterMap e).length = l.length := by
  induction l with
  | nil => rfl
  | cons x xs ih =>
    have hx := h x (List.mem_cons_self x xs)
    have hxs : ∀ n ∈ xs, optCount (c n) + optCount (k n) + optCount (e n) = 1 :=
      fun n hn => h n (List.mem_cons_of_mem x hn)
    have ihx := ih hxs
    cases hc : c x <;> cases hk : k x <;> cases he : e x <;>
      simp_all [List.filterMap_cons, optCount] <;> omega

theorem filterMap_eq_self_of {α : Type} [DecidableEq α] (l : List α) (f : α → Option α)
    (h : ∀ n ∈ l, f n = some n) : l.filterMap f = l := by
  induction l with
  | nil => rfl
  | cons x xs ih =>
    have hx := h x (List.mem_cons_self x xs)
    have hxs : ∀ n ∈ xs, f n = some n := fun n hn => h n (List.mem_cons_of_mem x hn)
    simp [List.filterMap_cons, hx, ih hxs]

/-!  Concrete fixtures used by counterexamples and witnesses. -/

/-- A fully healthy server with no collections. -/
def baseEnv : Server :=
  { collections := [], authError := none, listError := none, usersGetError := none
    oauthUpdateError := none, settingsError := none
    getOneError := fun _ => none, updateError := fun _ => none, createError := fun _ => none }

/-- A minimal schema with the given name. -/
def mkSchema (n : String) : CollectionSchema :=
  { name := n, type := CollectionType.base, fields := [], indexes := none
    listRule := none, viewRule := none, createRule := none, updateRule := none
    deleteRule := none }

/-- Server that rejects the admin credentials. -/
def envAuthFail : Server := { baseEnv with authError := some "bad credentials" }

/-- Server where listing the existing collections fails. -/
def envFetchFail : Server := { baseEnv with listError := some "network down" }

/-- Server that already holds a `users` collection and whose OAuth2
settings update fails. -/
def envSettingsFail : Server :=
  { baseEnv with collections := ["users"], usersGetError := some "boom" }

/-- Server where creating the `users` collection fails. -/
def envUsersCreateFail : Server :=
  { baseEnv with createError := fun n => if n = "users" then some "boom" else none }

/-- Server where every create call fails. -/
def envCreateFail : Server := { baseEnv with createError := fun _ => some "create failed" }

/-- Registry consisting of the single collection `a`. -/
def optsA : ProvisionOptions := { collections := [mkSchema "a"], updateExisting := false, settings := none }

/-- Registry consisting of the single collection `users`, provisioned
together with a googleAuth settings bag. -/
def optsUsersGoogle : ProvisionOptions :=
  { collections := [mkSchema "users"], updateExisting := false
    settings := some SettingsOpt.googleAuth }

/-- Registry consisting of the single collection `users`, no settings. -/
def optsUsersPlain : ProvisionOptions :=
  { collections := [mkSchema "users"], updateExisting := false, settings := none }

/-!  The claims. -/

/-- C3: if authentication fails, or authentication succeeds and the
existing-collections listing fails, `provisionCollections` returns
immediately with `success = false`, empty `created` and `skipped`, and
exactly one error entry tagged with the sentinel identifier (`_admin`
resp. `_system`), regardless of the registry's contents. -/
theorem claim_C3 (env : Server) (opts : ProvisionOptions) (e : String) :
    (env.authError = some e →
      provisionCollections env opts =
        RunOutput.mk
          (ProvisionResult.mk false [] [] [("_admin", e)]
            ("Admin authentication failed: " ++ e))
          env false) ∧
    (env.authError = none → env.listError = some e →
      provisionCollections env opts =
        RunOutput.mk
          (ProvisionResult.mk false [] [] [("_system", e)]
            ("Failed to fetch collections: " ++ e))
          env true) := by
  constructor
  · intro h
    simp [provisionCollections, h]
  · intro h1 h2
    simp [provisionCollections, h1, h2]

/-- Witness for C3 at a concrete failing login. -/
theorem claim_C3_witness :
    provisionCollections envAuthFail optsA =
      RunOutput.mk
        (ProvisionResult.mk false [] [] [("_admin", "bad credentials")]
          "Admin authentication failed: bad credentials")
        envAuthFail false :=
  (claim_C3 envAuthFail optsA "bad credentials").1 rfl

/-- C5: the returned `success` flag is true exactly when `errors` is
empty, and in particular a run that created nothing (everything
skipped) is still successful. -/
theorem claim_C5 :
    (∀ (env : Server) (opts : ProvisionOptions),
      ((provisionCollections env opts).result.success = true) ↔
        (provisionCollections env opts).result.errors = []) ∧
    ((provisionCollections { baseEnv with collections := ["a"] } optsA).result.success = true ∧
     (provisionCollections { baseEnv with collections := ["a"] } optsA).result.created = []) := by
  refine ⟨provision_success_iff, ?_, ?_⟩ <;> rfl

/-- C9: the exception-passing rendering of `provisionCollections`, in
which every remote call genuinely throws, always returns `Except.ok` of
the pure result: no failure mode escapes the function boundary as an
exception. -/
theorem claim_C9 :
    ∀ (env : Server) (opts : ProvisionOptions),
      provisionCollectionsE env opts = Except.ok (provisionCollections env opts) :=
  provisionCollectionsE_eq

/-- C6, counterexample: when the existing-collections fetch fails, the
run returns with the authenticated admin session still held
(`authValid = true`), so the session is NOT cleared on this early
return, contrary to the claim. -/
theorem claim_C6_cex :
    (provisionCollections envFetchFail optsA).authValid = true := rfl

/-- C6, amended: the admin session is cleared before returning on every
path that reaches the per-schema loop (the final return), and on the
authentication-failure early return no session was established in the
first place; on the fetch-failure early return, however, the
authenticated session is left uncleared. -/
theorem claim_C6_amended (env : Server) (opts : ProvisionOptions) :
    (env.authError = none → env.listError = none →
      (provisionCollections env opts).authValid = false) ∧
    (∀ e, env.authError = some e → (provisionCollections env opts).authValid = false) := by
  constructor
  · intro h1 h2
    exact provision_authValid env opts h1 h2
  · intro e h
    simp [provisionCollections, h]

/-- Witness for the amended C6: a fully successful run and an
authentication-failure run both return with no session held. -/
theorem claim_C6_amended_witness :
    (provisionCollections baseEnv optsA).authValid = false ∧
    (provisionCollections envAuthFail optsA).authValid = false :=
  ⟨(claim_C6_amended baseEnv optsA).1 rfl rfl,
   (claim_C6_amended envAuthFail optsA).2 "bad credentials" rfl⟩

/-- C8, counterexample: the health probe reports the thrown description
verbatim, so a transport failure whose description is the empty string
yields `message = ""`, refuting the claim that the failure message is
always non-empty. -/
theorem claim_C8_cex :
    checkPocketBaseHealth (Except.error "") = HealthResult.mk false "" := rfl

/-- C8, amended: `checkPocketBaseHealth` never raises (its throwing
rendering always returns `Except.ok`); on success it returns
`healthy = true` with the health endpoint's message, and on any
transport failure it returns `healthy = false` with the failure
description verbatim (non-empty exactly when that description is). -/
theorem claim_C8_amended (h : Except String String) :
    checkPocketBaseHealthE h = Except.ok (checkPocketBaseHealth h) ∧
    (∀ m, h = Except.ok m → checkPocketBaseHealth h = HealthResult.mk true m) ∧
    (∀ e, h = Except.error e → checkPocketBaseHealth h = HealthResult.mk false e) := by
  refine ⟨checkPocketBaseHealthE_eq h, ?_, ?_⟩ <;>
    · intro x hx
      subst hx
      rfl

/-- Witness for the amended C8 at a concrete unreachable server. -/
theorem claim_C8_amended_witness :
    checkPocketBaseHealth (Except.error "connection refused") =
      HealthResult.mk false "connection refused" :=
  (claim_C8_amended (Except.error "connection refused")).2.2 "connection refused" rfl

/-- C10: a failing googleAuth settings update is recorded under the
real collection name `users` (the non-googleAuth fallback under
`_settings`), and concretely a run whose only failure is the settings
update is indistinguishable, by its `errors` list, from a run whose
only failure is the per-item create of a collection named `users`. -/
theorem claim_C10 (env : Server) (opts : ProvisionOptions) (e : String) :
    (env.authError = none → env.listError = none →
      opts.settings = some SettingsOpt.googleAuth → env.usersGetError = some e →
      ("users", e) ∈ (provisionCollections env opts).result.errors) ∧
    (env.authError = none → env.listError = none →
      opts.settings = some SettingsOpt.googleAuth → env.usersGetError = none →
      env.oauthUpdateError = some e →
      ("users", e) ∈ (provisionCollections env opts).result.errors) ∧
    (env.authError = none → env.listError = none →
      opts.settings = some SettingsOpt.other → env.settingsError = some e →
      ("_settings", e) ∈ (provisionCollections env opts).result.errors) ∧
    ((provisionCollections envSettingsFail optsUsersGoogle).result.errors =
      [("users", "boom")] ∧
     (provisionCollections envUsersCreateFail optsUsersPlain).result.errors =
      [("users", "boom")]) := by
  refine ⟨?_, ?_, ?_, by decide, by decide⟩
  · intro h1 h2 hs hu
    rw [provision_errors env opts h1 h2, hs]
    simp [settingsStep, hu]
  · intro h1 h2 hs hu ho
    rw [provision_errors env opts h1 h2, hs]
    simp [settingsStep, hu, ho]
  · intro h1 h2 hs hse
    rw [provision_errors env opts h1 h2, hs]
    simp [settingsStep, hse]

/-- Witness for C10 at a concrete failing OAuth2 update. -/
theorem claim_C10_witness :
    ("users", "boom") ∈ (provisionCollections envSettingsFail optsUsersGoogle).result.errors :=
  (claim_C10 envSettingsFail optsUsersGoogle "boom").1 rfl rfl rfl rfl

/-- C1, counterexample: with a googleAuth settings bag whose update
fails and a registry containing a collection named `users` that already
exists on the server, the name `users` appears BOTH in `skipped` and in
`errors` (the settings failure is tagged with the real name `users`),
so the three sequences are not pairwise disjoint as the claim states. -/
theorem claim_C1_cex :
    "users" ∈ (provisionCollections envSettingsFail optsUsersGoogle).result.skipped ∧
    "users" ∈ ((provisionCollections envSettingsFail optsUsersGoogle).result.errors.map
      Prod.fst) := by decide

/-- C1, amended: on every run that reaches the per-schema loop AND in
which the optional settings step records no error (for instance when no
settings are supplied), the three result sequences are exactly the
per-name outcome entries of the registry in order; every schema name
contributes exactly one entry to exactly one of `created` (possibly
annotated " (updated)"), `skipped`, `errors`; the three lengths cover
the registry; `skipped` and the error tags are disjoint; and no schema
name is left out. -/
theorem claim_C1 (env : Server) (opts : ProvisionOptions)
    (hauth : env.authError = none) (hlist : env.listError = none)
    (hset : settingsStep env opts.settings = []) :
    (provisionCollections env opts).result.created =
      (opts.collections.map (fun s => s.name)).filterMap
        (createdEntry env opts.updateExisting env.collections) ∧
    (provisionCollections env opts).result.skipped =
      (opts.collections.map (fun s => s.name)).filterMap
        (skippedEntry env opts.updateExisting env.collections) ∧
    (provisionCollections env opts).result.errors =
      (opts.collections.map (fun s => s.name)).filterMap
        (errorEntry env opts.updateExisting env.collections) ∧
    (∀ n ∈ opts.collections.map (fun s => s.name),
      optCount (createdEntry env opts.updateExisting env.collections n) +
        optCount (skippedEntry env opts.updateExisting env.collections n) +
        optCount (errorEntry env opts.updateExisting env.collections n) = 1) ∧
    ((provisionCollections env opts).result.created.length +
      (provisionCollections env opts).result.skipped.length +
      (provisionCollections env opts).result.errors.length = opts.collections.length) ∧
    (∀ n, ¬(n ∈ (provisionCollections env opts).result.skipped ∧
        n ∈ ((provisionCollections env opts).result.errors.map Prod.fst))) ∧
    (∀ n ∈ opts.collections.map (fun s => s.name),
      (∃ c, createdEntry env opts.updateExisting env.collections n = some c ∧
        c ∈ (provisionCollections env opts).result.created) ∨
      n ∈ (provisionCollections env opts).result.skipped ∨
      (∃ msg, (n, msg) ∈ (provisionCollections env opts).result.errors)) := by
  have hc := provision_created env opts hauth hlist
  have hk := provision_skipped env opts hauth hlist
  have he' := provision_errors env opts hauth hlist
  rw [hset, List.nil_append] at he'
  refine ⟨hc, hk, he', ?_, ?_, ?_, ?_⟩
  · intro n _
    exact entry_count_one env opts.updateExisting env.collections n
  · rw [hc, hk, he']
    have hlen := three_filterMap_length
      (createdEntry env opts.updateExisting env.collections)
      (skippedEntry env opts.updateExisting env.collections)
      (errorEntry env opts.updateExisting env.collections)
      (opts.collections.map (fun s => s.name))
      (fun n _ => entry_count_one env opts.updateExisting env.collections n)
    rw [hlen, List.length_map]
  · rintro n ⟨hns, hne⟩
    rw [hk] at hns
    rw [he'] at hne
    rcases List.mem_filterMap.mp hns with ⟨m1, _, hsome1⟩
    obtain ⟨rfl, hout1⟩ :=
      skippedEntry_some env opts.updateExisting env.collections m1 n hsome1
    rcases List.mem_map.mp hne with ⟨p, hp, hfst⟩
    obtain ⟨pa, pb⟩ := p
    rcases List.mem_filterMap.mp hp with ⟨m2, _, hsome2⟩
    obtain ⟨h12, hout2⟩ :=
      errorEntry_some env opts.updateExisting env.collections m2 pa pb hsome2
    simp only at hfst
    rw [h12] at hfst
    rw [hfst] at hout2
    rw [hout1] at hout2
    exact Outcome.noConfusion hout2
  · intro n hn
    cases hcr : createdEntry env opts.updateExisting env.collections n with
    | some c =>
      exact Or.inl ⟨c, rfl, by rw [hc]; exact List.mem_filterMap.mpr ⟨n, hn, hcr⟩⟩
    | none =>
      cases hk2 : skippedEntry env opts.updateExisting env.collections n with
      | some a =>
        refine Or.inr (Or.inl ?_)
        obtain ⟨han, _⟩ := skippedEntry_some env opts.updateExisting env.collections n a hk2
        rw [hk]
        refine List.mem_filterMap.mpr ⟨n, hn, ?_⟩
        rw [hk2, han]
      | none =>
        cases he2 : errorEntry env opts.updateExisting env.collections n with
        | some p =>
          obtain ⟨pa, pb⟩ := p
          refine Or.inr (Or.inr ⟨pb, ?_⟩)
          obtain ⟨hpan, _⟩ :=
            errorEntry_some env opts.updateExisting env.collections n pa pb he2
          rw [he']
          refine List.mem_filterMap.mpr ⟨n, hn, ?_⟩
          rw [he2, hpan]
        | none =>
          exfalso
          have h1 := entry_count_one env opts.updateExisting env.collections n
          rw [hcr, hk2, he2] at h1
          simp [optCount] at h1

/-- Server for the C1 witness: `a` exists already, creating `b`
fails. -/
def envC1w : Server :=
  { baseEnv with
    collections := ["a"]
    createError := fun n => if n = "b" then some "boom" else none }

/-- Registry for the C1 witness. -/
def optsC1w : ProvisionOptions :=
  { collections := [mkSchema "a", mkSchema "b"], updateExisting := false
    settings := none }

/-- Witness for the amended C1: a two-schema registry in which one
schema is skipped and the other errors covers the registry exactly. -/
theorem claim_C1_witness :
    (provisionCollections envC1w optsC1w).result.created.length +
    (provisionCollections envC1w optsC1w).result.skipped.length +
    (provisionCollections envC1w optsC1w).result.errors.length = 2 :=
  (claim_C1 envC1w optsC1w rfl rfl rfl).2.2.2.2.1

/-- With `updateExisting = false`, a name already on the server is
skipped. -/
theorem skippedEntry_of_mem (env : Server) (ex : List String) (n : String) (h : n ∈ ex) :
    skippedEntry env false ex n = some n := by
  simp [skippedEntry, itemOutcome, h]

/-- With `updateExisting = false`, a name already on the server is not
created. -/
theorem createdEntry_of_mem (env : Server) (ex : List String) (n : String) (h : n ∈ ex) :
    createdEntry env false ex n = none := by
  simp [createdEntry, itemOutcome, h]

/-- With `updateExisting = false`, a name already on the server cannot
error. -/
theorem errorEntry_of_mem (env : Server) (ex : List String) (n : String) (h : n ∈ ex) :
    errorEntry env false ex n = none := by
  simp [errorEntry, itemOutcome, h]

/-- C2, counterexample: if the first run's create call fails, the name
never reaches the server, so the second run retries the create and
fails again — `skipped` is empty and `errors` non-empty on the second
run, contrary to the claim (which assumes nothing about the first
run's outcome). -/
theorem claim_C2_cex :
    (provisionCollections (provisionCollections envCreateFail optsA).server optsA).result.skipped
      = [] ∧
    (provisionCollections (provisionCollections envCreateFail optsA).server optsA).result.errors
      = [("a", "create failed")] := by decide

/-- C2, amended: if the FIRST run returns `success = true` (so all its
per-item operations and any settings update succeeded), then a second
run with `updateExisting = false` against the server the first run left
behind skips every schema name of the registry, in order, and reports
empty `created` and `errors` and `success = true`. -/
theorem claim_C2 (env : Server) (opts : ProvisionOptions)
    (hupd : opts.updateExisting = false)
    (hsucc : (provisionCollections env opts).result.success = true) :
    (provisionCollections (provisionCollections env opts).server opts).result.skipped =
      opts.collections.map (fun s => s.name) ∧
    (provisionCollections (provisionCollections env opts).server opts).result.created = [] ∧
    (provisionCollections (provisionCollections env opts).server opts).result.errors = [] ∧
    (provisionCollections (provisionCollections env opts).server opts).result.success = true := by
  have herr1 : (provisionCollections env opts).result.errors = [] :=
    (provision_success_iff env opts).mp hsucc
  have hauth : env.authError = none := by
    cases ha : env.authError with
    | none => rfl
    | some e =>
      exfalso
      have h := herr1
      simp [provisionCollections, ha] at h
  have hlist : env.listError = none := by
    cases hl : env.listError with
    | none => rfl
    | some e =>
      exfalso
      have h := herr1
      simp [provisionCollections, hauth, hl] at h
  have he' := provision_errors env opts hauth hlist
  rw [herr1] at he'
  obtain ⟨hset, hitems⟩ := List.append_eq_nil.mp he'.symm
  have hnone : ∀ n ∈ opts.collections.map (fun s => s.name),
      errorEntry env opts.updateExisting env.collections n = none := by
    intro n hn
    exact List.filterMap_eq_nil_iff.mp hitems n hn
  have hserver := provision_server env opts hauth hlist
  have hmem : ∀ t ∈ opts.collections,
      t.name ∈ (provisionCollections env opts).server.collections := by
    intro t ht
    rw [hserver]
    show t.name ∈ (opts.collections.map (fun s => s.name)).foldl
        (stepState env opts.updateExisting env.collections) env.collections
    exact mem_foldl_stepState_complete env opts.updateExisting env.collections
      (opts.collections.map (fun s => s.name)) env.collections (fun y hy => hy)
      t.name (List.mem_map.mpr ⟨t, ht, rfl⟩)
      (hnone t.name (List.mem_map.mpr ⟨t, ht, rfl⟩))
  have hauth1 : (provisionCollections env opts).server.authError = none := by
    rw [hserver]; exact hauth
  have hlist1 : (provisionCollections env opts).server.listError = none := by
    rw [hserver]; exact hlist
  have hset1 : settingsStep (provisionCollections env opts).server opts.settings = [] := by
    rw [hserver]; exact hset
  have hnames : ∀ n ∈ opts.collections.map (fun s => s.name),
      n ∈ (provisionCollections env opts).server.collections := by
    intro n hn
    rcases List.mem_map.mp hn with ⟨t, ht, rfl⟩
    exact hmem t ht
  have hskip2 : (provisionCollections (provisionCollections env opts).server opts).result.skipped
      = opts.collections.map (fun s => s.name) := by
    rw [provision_skipped _ opts hauth1 hlist1, hupd]
    exact filterMap_eq_self_of _ _ (fun n hn => skippedEntry_of_mem _ _ n (hnames n hn))
  have hcre2 : (provisionCollections (provisionCollections env opts).server opts).result.created
      = [] := by
    rw [provision_created _ opts hauth1 hlist1, hupd]
    exact List.filterMap_eq_nil_iff.mpr (fun n hn => createdEntry_of_mem _ _ n (hnames n hn))
  have herr2 : (provisionCollections (provisionCollections env opts).server opts).result.errors
      = [] := by
    rw [provision_errors _ opts hauth1 hlist1, hupd, hset1]
    simp only [List.nil_append]
    exact List.filterMap_eq_nil_iff.mpr (fun n hn => errorEntry_of_mem _ _ n (hnames n hn))
  exact ⟨hskip2, hcre2, herr2, (provision_success_iff _ opts).mpr herr2⟩

/-- Witness for the amended C2: a successful first run against an empty
server, then a second run that skips everything. -/
theorem claim_C2_witness :
    (provisionCollections (provisionCollections baseEnv optsA).server optsA).result.skipped
      = ["a"] ∧
    (provisionCollections (provisionCollections baseEnv optsA).server optsA).result.created
      = [] ∧
    (provisionCollections (provisionCollections baseEnv optsA).server optsA).result.errors
      = [] ∧
    (provisionCollections (provisionCollections baseEnv optsA).server optsA).result.success
      = true :=
  claim_C2 baseEnv optsA rfl rfl

/-- C4: when the create/update of the k-th schema fails, the schemas
before and after it are still processed and their outcomes recorded,
and the suffix's outcomes coincide with those of an independent run on
the suffix alone — one item's failure never aborts the rest. -/
theorem claim_C4 (env : Server) (opts : ProvisionOptions)
    (xs ys : List CollectionSchema) (s : CollectionSchema) (msg : String)
    (hreg : opts.collections = xs ++ s :: ys)
    (hauth : env.authError = none) (hlist : env.listError = none)
    (hfail : itemOutcome env opts.updateExisting env.collections s.name =
      Outcome.failed s.name msg) :
    (provisionCollections env opts).result.errors =
      settingsStep env opts.settings ++
        ((xs.map (fun t => t.name)).filterMap
            (errorEntry env opts.updateExisting env.collections) ++
          (s.name, msg) ::
            (ys.map (fun t => t.name)).filterMap
              (errorEntry env opts.updateExisting env.collections)) ∧
    (provisionCollections env opts).result.created =
      (xs.map (fun t => t.name)).filterMap
          (createdEntry env opts.updateExisting env.collections) ++
        (ys.map (fun t => t.name)).filterMap
          (createdEntry env opts.updateExisting env.collections) ∧
    (provisionCollections env opts).result.skipped =
      (xs.map (fun t => t.name)).filterMap
          (skippedEntry env opts.updateExisting env.collections) ++
        (ys.map (fun t => t.name)).filterMap
          (skippedEntry env opts.updateExisting env.collections) ∧
    (provisionCollections env
        (ProvisionOptions.mk ys opts.updateExisting opts.settings)).result.created =
      (ys.map (fun t => t.name)).filterMap
        (createdEntry env opts.updateExisting env.collections) ∧
    (provisionCollections env
        (ProvisionOptions.mk ys opts.updateExisting opts.settings)).result.skipped =
      (ys.map (fun t => t.name)).filterMap
        (skippedEntry env opts.updateExisting env.collections) ∧
    (provisionCollections env
        (ProvisionOptions.mk ys opts.updateExisting opts.settings)).result.errors =
      settingsStep env opts.settings ++
        (ys.map (fun t => t.name)).filterMap
          (errorEntry env opts.updateExisting env.collections) := by
  have hce : createdEntry env opts.updateExisting env.collections s.name = none := by
    unfold createdEntry
    rw [hfail]
  have hke : skippedEntry env opts.updateExisting env.collections s.name = none := by
    unfold skippedEntry
    rw [hfail]
  have hee : errorEntry env opts.updateExisting env.collections s.name =
      some (s.name, msg) := by
    unfold errorEntry
    rw [hfail]
  refine ⟨?_, ?_, ?_, ?_, ?_, ?_⟩
  · rw [provision_errors env opts hauth hlist, hreg]
    simp [List.filterMap_append, List.filterMap_cons, hee]
  · rw [provision_created env opts hauth hlist, hreg]
    simp [List.filterMap_append, List.filterMap_cons, hce]
  · rw [provision_skipped env opts hauth hlist, hreg]
    simp [List.filterMap_append, List.filterMap_cons, hke]
  · exact provision_created env (ProvisionOptions.mk ys opts.updateExisting opts.settings)
      hauth hlist
  · exact provision_skipped env (ProvisionOptions.mk ys opts.updateExisting opts.settings)
      hauth hlist
  · exact provision_errors env (ProvisionOptions.mk ys opts.updateExisting opts.settings)
      hauth hlist

/-- Server for the C4 witness: creating `b` fails, everything else
succeeds. -/
def envC4w : Server :=
  { baseEnv with
    createError := fun n => if n = "b" then some "boom" else none }

/-- Registry for the C4 witness. -/
def optsC4w : ProvisionOptions :=
  { collections := [mkSchema "a", mkSchema "b", mkSchema "c"], updateExisting := false
    settings := none }

/-- Witness for C4: with `b` failing in the middle, `a` and `c` are
still created and only `b` is reported in `errors`. -/
theorem claim_C4_witness :
    (provisionCollections envC4w optsC4w).result.errors = [("b", "boom")] ∧
    (provisionCollections envC4w optsC4w).result.created = ["a", "c"] := by
  have h := claim_C4 envC4w optsC4w [mkSchema "a"] [mkSchema "c"] (mkSchema "b") "boom"
    rfl rfl rfl (by decide)
  exact ⟨by simpa using h.1, by simpa using h.2.1⟩

/-- The documented per-kind default attributes emitted when the options
bag omits the corresponding keys (the kinds outside this table carry no
kind-specific attributes of their own). -/
def kindDefaults : FieldType → List (String × JValue)
  | FieldType.text =>
    [("min", JValue.num 0), ("max", JValue.num 0), ("pattern", JValue.str "")]
  | FieldType.number =>
    [("min", JValue.null), ("max", JValue.null), ("noDecimal", JValue.jbool false)]
  | FieldType.select =>
    [("values", JValue.arr []), ("maxSelect", JValue.num 1)]
  | FieldType.relation =>
    [("collectionId", JValue.str ""), ("cascadeDelete", JValue.jbool false),
     ("maxSelect", JValue.num 1)]
  | FieldType.file =>
    [("maxSelect", JValue.num 1), ("maxSize", JValue.num 5242880),
     ("mimeTypes", JValue.arr [])]
  | FieldType.editor => [("convertUrls", JValue.jbool false)]
  | _ => []

/-- C7: `buildCollectionPayload` copies `name`, `type`, the fields in
registry order, `indexes` (defaulting to the empty sequence) and the
five access rules through to the payload; each field whose options omit
the kind-specific keys gets exactly the documented defaults appended to
its common head (nothing extra for `bool`); and for the remaining kinds
(email, url, date, json) a supplied options bag is shallow-merged onto
the common head verbatim. -/
theorem claim_C7 (s : CollectionSchema) (f : FieldSchema) :
    ((buildCollectionPayload s).name = s.name ∧
     (buildCollectionPayload s).type = s.type ∧
     (buildCollectionPayload s).fields = s.fields.map buildFieldPayload ∧
     (buildCollectionPayload s).indexes = s.indexes.getD [] ∧
     (buildCollectionPayload s).listRule = s.listRule ∧
     (buildCollectionPayload s).viewRule = s.viewRule ∧
     (buildCollectionPayload s).createRule = s.createRule ∧
     (buildCollectionPayload s).updateRule = s.updateRule ∧
     (buildCollectionPayload s).deleteRule = s.deleteRule) ∧
    (isOtherKind f.type = false →
      (∀ k, getOpt f.options k = none) →
      buildFieldPayload f = fieldBase f ++ kindDefaults f.type) ∧
    (isOtherKind f.type = true →
      (∀ opts, f.options = some opts →
        buildFieldPayload f = objAssign (fieldBase f) opts) ∧
      (f.options = none → buildFieldPayload f = fieldBase f)) := by
  refine ⟨⟨rfl, rfl, rfl, rfl, rfl, rfl, rfl, rfl, rfl⟩, ?_, ?_⟩
  · intro hother homit
    cases ht : f.type <;>
      simp_all [buildFieldPayload, kindDefaults, optD, isOtherKind]
  · intro hother
    constructor
    · intro opts hopts
      cases ht : f.type <;>
        simp_all [buildFieldPayload, isOtherKind]
    · intro hnone
      cases ht : f.type <;>
        simp_all [buildFieldPayload, isOtherKind]

/-- A text field with no options, for the C7 witness. -/
def titleField : FieldSchema :=
  { name := "title", type := FieldType.text, required := some true, options := none }

/-- Witness for C7: the payload of a required text field with no
options carries exactly the documented defaults. -/
theorem claim_C7_witness :
    buildFieldPayload titleField =
      [("name", JValue.str "title"), ("type", JValue.str "text"),
       ("required", JValue.jbool true),
       ("min", JValue.num 0), ("max", JValue.num 0), ("pattern", JValue.str "")] :=
  (claim_C7 (mkSchema "test_items") titleField).2.1 rfl (fun _ => rfl)
